import Mathlib

/-!
Verification of the moderation core of the Aiogram support bot
(`src/bot/handlers.py`): the in-memory mute/ban registries, the
duration parser, the admin command handlers, the relay gate and the
background expiry sweeper.

Python dicts `muted_users : {user_id: (unmute_time, reason)}` and
`banned_users : {user_id: reason}` are modelled as association lists
keyed by `Nat` user ids; `datetime` instants are abstract `Nat`
timestamps (minutes), so `datetime.now() + timedelta(minutes=m)`
becomes `now + m`.
-/

namespace SupportBot

/-- Lookup of a key in an association list (Python `d[k]` / `k in d`). -/
def lookupKey (k : Nat) : List (Nat × α) → Option α
  | [] => none
  | (k2, v) :: rest => if k2 = k then some v else lookupKey k rest

/-- Removal of a key (Python `del d[k]`). -/
def eraseKey (k : Nat) (l : List (Nat × α)) : List (Nat × α) :=
  l.filter (fun p => !(p.1 == k))

/-- Insertion / overwrite of a key (Python `d[k] = v`). -/
def insertKey (k : Nat) (v : α) (l : List (Nat × α)) : List (Nat × α) :=
  (k, v) :: eraseKey k l

/-- Membership test (Python `k in d`). -/
def containsKey (k : Nat) (l : List (Nat × α)) : Bool :=
  (lookupKey k l).isSome

/-- The two module-level registries of `handlers.py`
(lines 26 and 29): `muted_users : {user_id: (unmute_time, reason)}`
and `banned_users : {user_id: reason}`. -/
structure State where
  muted : List (Nat × Nat × String)
  banned : List (Nat × String)
deriving DecidableEq, Repr

/-- `is_user_muted` (handlers.py lines 124-134): true when a mute
record exists and `now < unmute_time`; an expired record is deleted
(lazy GC) before returning false.  The mutated `muted_users` dict is
returned as the second component. -/
def is_user_muted (now : Nat) (st : State) (uid : Nat) : Bool × State :=
  match lookupKey uid st.muted with
  | some (t, _r) =>
      if now < t then (true, st)
      else (false, { st with muted := eraseKey uid st.muted })
  | none => (false, st)

/-- `is_user_banned` (handlers.py lines 136-138). -/
def is_user_banned (st : State) (uid : Nat) : Bool :=
  containsKey uid st.banned

/-- `re.search(r'(\d+)<marker>', s)` specialised to the two patterns of
`parse_duration`: scan for the leftmost maximal digit run that is
immediately followed by `marker`, returning the run's numeric value.
`cur = none` means no digit run is currently open; `cur = some n` means
the open run has value `n`. -/
def findNum (marker : Char) (cur : Option Nat) : List Char → Option Nat
  | [] => none
  | c :: cs =>
      if c.isDigit then
        findNum marker (some (10 * cur.getD 0 + (c.toNat - 48))) cs
      else if c = marker then
        match cur with
        | some n => some n
        | none => findNum marker none cs
      else
        findNum marker none cs

/-- Numeric value of a digit run (used by the bare-`int` branch). -/
def natOfDigits (l : List Char) : Nat :=
  l.foldl (fun n c => 10 * n + (c.toNat - 48)) 0

/-- Python `int(s)` on the sign-and-ASCII-digits fragment that
`parse_duration`'s fallback branch can meet: an optional `-`/`+` sign
followed by a non-empty digit string; anything else raises
`ValueError`, modelled as `none`. -/
def pyInt (s : String) : Option Int :=
  match s.data with
  | [] => none
  | '-' :: rest =>
      if rest ≠ [] ∧ rest.all Char.isDigit then some (-(natOfDigits rest : Int))
      else none
  | '+' :: rest =>
      if rest ≠ [] ∧ rest.all Char.isDigit then some ((natOfDigits rest : Int))
      else none
  | l =>
      if l.all Char.isDigit then some ((natOfDigits l : Int))
      else none

/-- The token-summing part of `parse_duration` (handlers.py lines
92-117), before clamping: hours token `(\d+)ч` contributes `h * 60`,
minutes token `(\d+)м` contributes `m`; if the total is still 0 the
whole input is tried as a bare integer number of hours, and if that
fails the 60-minute default is used.  Returns the running total
(an `Int`, since a bare negative integer parses) and the display
parts list. -/
def parse_core (s : String) : Int × List String :=
  let step1 : Int × List String :=
    match findNum 'ч' none s.data with
    | some h => ((h : Int) * 60, [toString h ++ "ч"])
    | none => (0, [])
  let step2 : Int × List String :=
    match findNum 'м' none s.data with
    | some m => (step1.1 + (m : Int), step1.2 ++ [toString m ++ "м"])
    | none => step1
  if step2.1 = 0 then
    match pyInt s with
    | some h => (h * 60, step2.2 ++ [toString h ++ "ч"])
    | none => (60, step2.2 ++ ["1ч"])
  else step2

/-- `parse_duration` (handlers.py lines 83-122): empty input gives the
one-hour default, otherwise the token total of `parse_core` clamped
above by `min(total, 1440)`, paired with `' '.join(time_parts)`. -/
def parse_duration (s : String) : Int × String :=
  if s = "" then (60, "1 час")
  else (min (parse_core s).1 1440, String.intercalate " " (parse_core s).2)

/-- The minute count the `/mute` handler actually stores (handlers.py
lines 330-334): `parse_duration` followed by the handler's
`if total_minutes <= 0: total_minutes = 60` fix-up. -/
def mute_minutes (durStr : String) : Int :=
  let m := (parse_duration durStr).1
  if m ≤ 0 then 60 else m

/-- Outcome of the `bot.send_message` notification to the target user:
either it returns, or it raises `TelegramAPIError` with a message. -/
inductive SendResult
  | ok
  | apiError (msg : String)
deriving DecidableEq, Repr

/-- The reply the admin command handler sends back to the invoking
chat, abstracted from the Russian text of handlers.py. -/
inductive AdminReply
  | confirmBan
  | confirmMute
  | confirmUnmute
  | confirmUnban
  | notMuted
  | notBanned
  | bannedFirst
  | deliveryError (msg : String)
deriving DecidableEq, Repr

/-- Result of one admin command: the registry state after the handler,
the reply to the invoker, and whether a notification to the target was
attempted. -/
structure CmdResult where
  st : State
  reply : AdminReply
  notified : Bool
deriving DecidableEq, Repr

/-- The `/ban` branch of `handle_admin_commands` (handlers.py lines
289-309): store the reason in `banned_users`, delete any
`muted_users` entry, then notify the target; `TelegramAPIError`
from the notification is caught and reported, the registry writes
stand. -/
def ban_cmd (st : State) (uid : Nat) (reason : String) (send : SendResult) :
    CmdResult :=
  let st1 : State :=
    { banned := insertKey uid reason st.banned,
      muted := if containsKey uid st.muted then eraseKey uid st.muted else st.muted }
  match send with
  | .ok => ⟨st1, .confirmBan, true⟩
  | .apiError m => ⟨st1, .deliveryError m, true⟩

/-- The `/mute` branch of `handle_admin_commands` (handlers.py lines
311-351): refuse if the target is banned; otherwise store
`(now + minutes, reason)` in `muted_users` (with the
`total_minutes <= 0` fix-up of lines 332-334) and notify the target. -/
def mute_cmd (now : Nat) (st : State) (uid : Nat) (durStr reason : String)
    (send : SendResult) : CmdResult :=
  if containsKey uid st.banned then ⟨st, .bannedFirst, false⟩
  else
    let st1 : State :=
      { st with muted := insertKey uid (now + (mute_minutes durStr).toNat, reason) st.muted }
    match send with
    | .ok => ⟨st1, .confirmMute, true⟩
    | .apiError m => ⟨st1, .deliveryError m, true⟩

/-- The `/unmute` branch of `handle_admin_commands` (handlers.py lines
353-366): if `user_id in muted_users`, delete the record and notify;
otherwise reply "not muted" without touching the registries. -/
def unmute_cmd (st : State) (uid : Nat) (send : SendResult) : CmdResult :=
  if containsKey uid st.muted then
    let st1 : State := { st with muted := eraseKey uid st.muted }
    match send with
    | .ok => ⟨st1, .confirmUnmute, true⟩
    | .apiError m => ⟨st1, .deliveryError m, true⟩
  else ⟨st, .notMuted, false⟩

/-- The `/unban` branch of `handle_admin_commands` (handlers.py lines
368-381): if `user_id in banned_users`, delete the record and notify;
otherwise reply "not banned". -/
def unban_cmd (st : State) (uid : Nat) (send : SendResult) : CmdResult :=
  if containsKey uid st.banned then
    let st1 : State := { st with banned := eraseKey uid st.banned }
    match send with
    | .ok => ⟨st1, .confirmUnban, true⟩
    | .apiError m => ⟨st1, .deliveryError m, true⟩
  else ⟨st, .notBanned, false⟩

/-- The user ids collected by one scan of `check_mute_expirations`
(handlers.py lines 37-42): those whose `current_time >= unmute_time`. -/
def expired_ids (now : Nat) (muted : List (Nat × Nat × String)) : List Nat :=
  (muted.filter (fun p => decide (p.2.1 ≤ now))).map (fun p => p.1)

/-- The registry effect of one cycle of `check_mute_expirations`
(handlers.py lines 36-55): every collected id is deleted from
`muted_users` (notification failures are logged and change nothing),
`banned_users` is untouched. -/
def sweep_cycle (now : Nat) (st : State) : State :=
  { st with
    muted := (expired_ids now st.muted).foldl (fun m uid => eraseKey uid m) st.muted }

/-- One observable phase of the `check_mute_expirations` loop body
(handlers.py lines 34-59): the scan-and-evict phase, or the
`asyncio.sleep` call with its duration in seconds. -/
inductive SweepEvent
  | scanEvict
  | sleep (secs : Nat)
deriving DecidableEq, Repr

/-- The loop body of `check_mute_expirations` in source order: the scan
and eviction (lines 36-54) happen first, then `asyncio.sleep(60)`
(line 56). -/
def sweeper_body : List SweepEvent :=
  [SweepEvent.scanEvict, SweepEvent.sleep 60]

/-- The event trace of `n` iterations of the `while True` sweeper loop. -/
def sweeper_events : Nat → List SweepEvent
  | 0 => []
  | n + 1 => sweeper_body ++ sweeper_events n

/-- The status line computed by `get_user_info` (handlers.py lines
238-252). -/
inductive UserStatus
  | noRestriction
  | bannedWith (reason : String)
  | mutedUntil (t : Nat) (reason : String)
deriving DecidableEq, Repr

/-- The moderation-status portion of `get_user_info` (handlers.py lines
238-252): ban wins; an unexpired mute is reported with its expiry; an
expired mute record is deleted and the status stays "Нет". -/
def get_user_info_status (now : Nat) (st : State) (uid : Nat) :
    UserStatus × State :=
  if is_user_banned st uid then
    (.bannedWith ((lookupKey uid st.banned).getD ""), st)
  else
    match lookupKey uid st.muted with
    | some (t, r) =>
        if now < t then (.mutedUntil t r, st)
        else (.noRestriction, { st with muted := eraseKey uid st.muted })
    | none => (.noRestriction, st)

/-- What the relay gate does with an inbound private message. -/
inductive RelayAction
  | replyBanned (reason : String)
  | replyMuted
  | replyTooLong
  | forwardToGroup
deriving DecidableEq, Repr

/-- `send_message_to_group` (handlers.py lines 174-215): ban gate, mute
gate (with `is_user_muted`'s lazy-GC side effect), then the
`len(message.text) > 4000` length gate, else forward to the group. -/
def send_message_to_group (now : Nat) (st : State) (uid : Nat)
    (text : String) : RelayAction × State :=
  if is_user_banned st uid then
    (.replyBanned ((lookupKey uid st.banned).getD ""), st)
  else
    let res := is_user_muted now st uid
    if res.1 then (.replyMuted, res.2)
    else if 4000 < text.length then (.replyTooLong, res.2)
    else (.forwardToGroup, res.2)

/-- `supported_media` (handlers.py lines 390-431): same ban and mute
gates, then the `message.caption and len(message.caption) > 1000`
caption gate, else copy to the group. -/
def supported_media (now : Nat) (st : State) (uid : Nat)
    (caption : Option String) : RelayAction × State :=
  if is_user_banned st uid then
    (.replyBanned ((lookupKey uid st.banned).getD ""), st)
  else
    let res := is_user_muted now st uid
    if res.1 then (.replyMuted, res.2)
    else if (match caption with
             | some c => decide (1000 < c.length)
             | none => false) then (.replyTooLong, res.2)
    else (.forwardToGroup, res.2)

lemma lookupKey_eraseKey_self (k : Nat) (l : List (Nat × α)) :
    lookupKey k (eraseKey k l) = none := by
  induction l with
  | nil => rfl
  | cons p rest ih =>
      simp only [eraseKey, List.filter_cons] at ih ⊢
      by_cases h : p.1 = k
      · simpa [h] using ih
      · simpa [h, lookupKey] using ih

lemma lookupKey_insertKey_self (k : Nat) (v : α) (l : List (Nat × α)) :
    lookupKey k (insertKey k v l) = some v := by
  simp [insertKey, lookupKey]

lemma containsKey_eq_false_iff (k : Nat) (l : List (Nat × α)) :
    containsKey k l = false ↔ lookupKey k l = none := by
  simp [containsKey, Option.isSome]
  cases lookupKey k l <;> simp

/-- C1: `isMuted(userId)` returns true iff a mute record for that user
exists and the current time is strictly before its `unmuteAt`; and when
a record exists but is expired, the call removes it from the mute
registry before returning false. -/
theorem is_user_muted_spec (now : Nat) (st : State) (uid : Nat) :
    ((is_user_muted now st uid).1 = true ↔
      ∃ t r, lookupKey uid st.muted = some (t, r) ∧ now < t) ∧
    (∀ t r, lookupKey uid st.muted = some (t, r) → ¬ now < t →
      (is_user_muted now st uid).1 = false ∧
      lookupKey uid (is_user_muted now st uid).2.muted = none) := by
  constructor
  · cases h : lookupKey uid st.muted with
    | none => simp [is_user_muted, h]
    | some p =>
        rcases p with ⟨t, r⟩
        by_cases ht : now < t
        · simp [is_user_muted, h, ht]
        · simp [is_user_muted, h, ht]
  · intro t r hl ht
    simp [is_user_muted, hl, ht, lookupKey_eraseKey_self]

/-- C1 witness: at time 10, a record with `unmuteAt = 5` produces
`false` and is evicted. -/
theorem is_user_muted_spec_witness :
    (is_user_muted 10 ⟨[(1, 5, "spam")], []⟩ 1).1 = false ∧
    lookupKey 1 (is_user_muted 10 ⟨[(1, 5, "spam")], []⟩ 1).2.muted = none :=
  (is_user_muted_spec 10 ⟨[(1, 5, "spam")], []⟩ 1).2 5 "spam" rfl (by decide)

lemma foldl_eraseKey (ids : List Nat) (m : List (Nat × α)) :
    ids.foldl (fun acc uid => eraseKey uid acc) m =
      m.filter (fun p => !(ids.contains p.1)) := by
  induction ids generalizing m with
  | nil => simp
  | cons i ids ih =>
      rw [List.foldl_cons, ih, eraseKey, List.filter_filter]
      apply List.filter_congr
      intro p _
      by_cases h : p.1 = i <;>
        simp [List.contains_cons, Bool.not_or, Bool.and_comm, h]

/-- C3: one cycle of the expiry sweeper removes exactly the mute
records with `unmuteAt <= now`, keeps every other mute record
unchanged and in place, and leaves the ban registry untouched.  The
hypothesis is the dict invariant that keys are unique. -/
theorem sweep_cycle_spec (now : Nat) (st : State)
    (hnd : (st.muted.map Prod.fst).Nodup) :
    (sweep_cycle now st).muted =
      st.muted.filter (fun p => decide (now < p.2.1)) ∧
    (sweep_cycle now st).banned = st.banned := by
  refine ⟨?_, rfl⟩
  show (expired_ids now st.muted).foldl (fun m uid => eraseKey uid m) st.muted = _
  rw [foldl_eraseKey]
  apply List.filter_congr
  intro p hp
  have hiff : (expired_ids now st.muted).contains p.1 = true ↔ p.2.1 ≤ now := by
    constructor
    · intro hc
      have hmem : p.1 ∈ expired_ids now st.muted := List.elem_iff.mp hc
      rw [expired_ids] at hmem
      rcases List.mem_map.mp hmem with ⟨q, hq, hq1⟩
      rcases List.mem_filter.mp hq with ⟨hql, hqt⟩
      have hpq : q = p := List.inj_on_of_nodup_map hnd hql hp hq1
      rw [← hpq]
      exact of_decide_eq_true hqt
    · intro hle
      apply List.elem_iff.mpr
      apply List.mem_map.mpr
      exact ⟨p, List.mem_filter.mpr ⟨hp, decide_eq_true hle⟩, rfl⟩
  cases hc : (expired_ids now st.muted).contains p.1 with
  | false =>
      have h2 : now < p.2.1 :=
        Nat.lt_of_not_le (fun hle => by
          rw [hiff.mpr hle] at hc
          exact Bool.noConfusion hc)
      simp [h2]
  | true =>
      have h2 : ¬ now < p.2.1 := Nat.not_lt.mpr (hiff.mp hc)
      simp [h2]

/-- C3 witness: at time 10 the sweeper drops the records expiring at 5
and 10, keeps the one expiring at 100, and leaves the ban registry
alone. -/
theorem sweep_cycle_spec_witness :
    (sweep_cycle 10 ⟨[(1, 5, "a"), (2, 100, "b"), (3, 10, "c")], [(7, "x")]⟩).muted
      = [(1, 5, "a"), (2, 100, "b"), (3, 10, "c")].filter
          (fun p => decide (10 < p.2.1)) ∧
    (sweep_cycle 10 ⟨[(1, 5, "a"), (2, 100, "b"), (3, 10, "c")], [(7, "x")]⟩).banned
      = [(7, "x")] :=
  sweep_cycle_spec 10 ⟨[(1, 5, "a"), (2, 100, "b"), (3, 10, "c")], [(7, "x")]⟩
    (by decide)

/-- C2: for every user id and any prior registry state, `/ban` stores
the given reason in the ban registry and removes any mute record, so
that immediately afterwards `isMuted` is false and `isBanned` is true
(regardless of whether the notification succeeds). -/
theorem ban_cmd_spec (now : Nat) (st : State) (uid : Nat) (r : String)
    (send : SendResult) :
    lookupKey uid (ban_cmd st uid r send).st.banned = some r ∧
    lookupKey uid (ban_cmd st uid r send).st.muted = none ∧
    (is_user_muted now (ban_cmd st uid r send).st uid).1 = false ∧
    is_user_banned (ban_cmd st uid r send).st uid = true := by
  have hst : (ban_cmd st uid r send).st =
      { banned := insertKey uid r st.banned,
        muted := if containsKey uid st.muted then eraseKey uid st.muted
                 else st.muted } := by
    cases send <;> rfl
  rw [hst]
  have hmut :
      lookupKey uid
        (if containsKey uid st.muted then eraseKey uid st.muted else st.muted)
        = none := by
    by_cases h : containsKey uid st.muted = true
    · simp [h, lookupKey_eraseKey_self]
    · have h2 : containsKey uid st.muted = false := by
        cases hc : containsKey uid st.muted
        · rfl
        · exact absurd hc h
      simp [h2, (containsKey_eq_false_iff _ _).1 h2]
  exact ⟨lookupKey_insertKey_self uid r st.banned, hmut,
    by simp [is_user_muted, hmut],
    by simp [is_user_banned, containsKey, lookupKey_insertKey_self]⟩

/-- C4 counterexample: the parser itself does not replace
non-positive results; on the bare-integer input `"0"` it returns a
minute count of 0, violating `1 <= m`. -/
theorem parse_duration_zero_cex :
    parse_duration "0" = (0, "0ч") ∧ ¬ (1 ≤ (parse_duration "0").1) := by
  constructor <;> decide

/-- C4 (amended): the parser clamps to at most 1440 but can return a
value ≤ 0 (e.g. 0 on `"0"`); the replacement of non-positive results by
the 60-minute default is performed by the `/mute` handler, so the
minute count actually used for muting satisfies `1 <= m <= 1440`. -/
theorem parse_duration_bounds (s : String) :
    (parse_duration s).1 ≤ 1440 ∧
    1 ≤ mute_minutes s ∧ mute_minutes s ≤ 1440 := by
  have h1 : (parse_duration s).1 ≤ 1440 := by
    by_cases hs : s = ""
    · simp [parse_duration, hs]
    · rw [parse_duration, if_neg hs]
      exact min_le_right _ _
  refine ⟨h1, ?_, ?_⟩ <;> rw [mute_minutes] <;>
    by_cases hm : (parse_duration s).1 ≤ 0 <;> simp [hm] <;> omega

/-- C5 counterexample: the first event of the sweeper loop is the
scan-and-evict phase, not a 60-second sleep: the loop body runs the
scan before `asyncio.sleep(60)`. -/
theorem sweeper_first_event_cex :
    (sweeper_events 1).head? = some SweepEvent.scanEvict ∧
    SweepEvent.scanEvict ≠ SweepEvent.sleep 60 := by decide

/-- C5 (amended): the sweeper's initial phase is Sweeping, not
Sleeping: every iteration of the loop performs the scan-and-evict
phase first and only then sleeps 60 seconds, so the first scan happens
immediately at loop start. -/
theorem sweeper_events_spec (n : Nat) :
    sweeper_events (n + 1) =
      SweepEvent.scanEvict :: SweepEvent.sleep 60 :: sweeper_events n ∧
    (sweeper_events (n + 1)).head? = some SweepEvent.scanEvict :=
  ⟨rfl, rfl⟩

/-- C6 counterexample: `/unmute` does not treat a stale mute record
(`unmuteAt = 5`, stale at any `now >= 5`) as absent: it deletes the
record, notifies the target and replies with the success confirmation,
not with "not muted" as the claim requires. -/
theorem unmute_stale_cex :
    (unmute_cmd ⟨[(1, 5, "r")], []⟩ 1 SendResult.ok).reply =
      AdminReply.confirmUnmute ∧
    AdminReply.confirmUnmute ≠ AdminReply.notMuted ∧
    (unmute_cmd ⟨[(1, 5, "r")], []⟩ 1 SendResult.ok).notified = true := by
  decide

/-- C6 (amended): the mute-status check and the info query treat a
stale mute record (`unmuteAt <= now`) as absent and remove it as a side
effect; the unmute operation instead treats any present record, stale
or not, as muted: it removes it, notifies the target and replies with
the success confirmation rather than "not muted". -/
theorem stale_record_readers (now : Nat) (st : State) (uid t : Nat)
    (r : String) (hm : lookupKey uid st.muted = some (t, r)) (ht : t ≤ now) :
    ((is_user_muted now st uid).1 = false ∧
      lookupKey uid (is_user_muted now st uid).2.muted = none) ∧
    (lookupKey uid st.banned = none →
      (get_user_info_status now st uid).1 = UserStatus.noRestriction ∧
      lookupKey uid (get_user_info_status now st uid).2.muted = none) ∧
    (∀ send, (unmute_cmd st uid send).reply ≠ AdminReply.notMuted ∧
      (unmute_cmd st uid send).notified = true ∧
      lookupKey uid (unmute_cmd st uid send).st.muted = none) := by
  have hnl : ¬ now < t := Nat.not_lt.mpr ht
  have hck : containsKey uid st.muted = true := by
    simp [containsKey, hm]
  refine ⟨?_, ?_, ?_⟩
  · simp [is_user_muted, hm, hnl, lookupKey_eraseKey_self]
  · intro hb
    have hnb : is_user_banned st uid = false := by
      simp [is_user_banned, containsKey, hb]
    simp [get_user_info_status, hnb, hm, hnl, lookupKey_eraseKey_self]
  · intro send
    cases send <;> simp [unmute_cmd, hck, lookupKey_eraseKey_self]

/-- C6 witness: with a record expired at 5 read at time 10, the status
check reports not muted, the info query reports no restriction, and
unmute nevertheless notifies the target. -/
theorem stale_record_readers_witness :
    (is_user_muted 10 ⟨[(1, 5, "r")], []⟩ 1).1 = false ∧
    (get_user_info_status 10 ⟨[(1, 5, "r")], []⟩ 1).1 =
      UserStatus.noRestriction ∧
    (unmute_cmd ⟨[(1, 5, "r")], []⟩ 1 SendResult.ok).notified = true :=
  ⟨(stale_record_readers 10 ⟨[(1, 5, "r")], []⟩ 1 5 "r" rfl (by decide)).1.1,
   ((stale_record_readers 10 ⟨[(1, 5, "r")], []⟩ 1 5 "r" rfl (by decide)).2.1
      rfl).1,
   ((stale_record_readers 10 ⟨[(1, 5, "r")], []⟩ 1 5 "r" rfl (by decide)).2.2
      SendResult.ok).2.1⟩

/-- C7: for each of `/ban`, `/mute`, `/unmute`, `/unban`, when the
notification to the target raises `TelegramAPIError`, the handler
replies with the delivery-error message and the registry mutation
stands: the state equals the state of the successful-delivery run, and
the written (or deleted) record is in place. -/
theorem notify_failure_keeps_mutation (now : Nat) (st : State) (uid : Nat)
    (r durStr reason e : String) :
    ((ban_cmd st uid r (SendResult.apiError e)).st =
        (ban_cmd st uid r SendResult.ok).st ∧
      (ban_cmd st uid r (SendResult.apiError e)).reply =
        AdminReply.deliveryError e ∧
      is_user_banned (ban_cmd st uid r (SendResult.apiError e)).st uid = true) ∧
    (containsKey uid st.banned = false →
      (mute_cmd now st uid durStr reason (SendResult.apiError e)).st =
        (mute_cmd now st uid durStr reason SendResult.ok).st ∧
      (mute_cmd now st uid durStr reason (SendResult.apiError e)).reply =
        AdminReply.deliveryError e ∧
      lookupKey uid
          (mute_cmd now st uid durStr reason (SendResult.apiError e)).st.muted =
        some (now + (mute_minutes durStr).toNat, reason)) ∧
    (containsKey uid st.muted = true →
      (unmute_cmd st uid (SendResult.apiError e)).st =
        (unmute_cmd st uid SendResult.ok).st ∧
      (unmute_cmd st uid (SendResult.apiError e)).reply =
        AdminReply.deliveryError e ∧
      lookupKey uid (unmute_cmd st uid (SendResult.apiError e)).st.muted =
        none) ∧
    (containsKey uid st.banned = true →
      (unban_cmd st uid (SendResult.apiError e)).st =
        (unban_cmd st uid SendResult.ok).st ∧
      (unban_cmd st uid (SendResult.apiError e)).reply =
        AdminReply.deliveryError e ∧
      lookupKey uid (unban_cmd st uid (SendResult.apiError e)).st.banned =
        none) := by
  refine ⟨⟨rfl, rfl, ?_⟩, ?_, ?_, ?_⟩
  · simp [ban_cmd, is_user_banned, containsKey, lookupKey_insertKey_self]
  · intro hb
    simp [mute_cmd, hb, lookupKey_insertKey_self]
  · intro hmu
    simp [unmute_cmd, hmu, lookupKey_eraseKey_self]
  · intro hb
    simp [unban_cmd, hb, lookupKey_eraseKey_self]

/-- C7 witness: concrete runs of the four commands with a failing
notification, showing the delivery-error reply and the committed
mutation. -/
theorem notify_failure_keeps_mutation_witness :
    (ban_cmd ⟨[(1, 5, "r")], []⟩ 1 "b" (SendResult.apiError "err")).reply =
      AdminReply.deliveryError "err" ∧
    lookupKey 1
        (mute_cmd 0 ⟨[(1, 5, "r")], []⟩ 1 "2ч" "sp"
          (SendResult.apiError "err")).st.muted =
      some (0 + (mute_minutes "2ч").toNat, "sp") ∧
    lookupKey 1
        (unmute_cmd ⟨[(1, 5, "r")], []⟩ 1 (SendResult.apiError "err")).st.muted =
      none ∧
    lookupKey 1
        (unban_cmd ⟨[], [(1, "b")]⟩ 1 (SendResult.apiError "err")).st.banned =
      none :=
  ⟨(notify_failure_keeps_mutation 0 ⟨[(1, 5, "r")], []⟩ 1 "b" "2ч" "sp"
      "err").1.2.1,
   ((notify_failure_keeps_mutation 0 ⟨[(1, 5, "r")], []⟩ 1 "b" "2ч" "sp"
      "err").2.1 (by decide)).2.2,
   ((notify_failure_keeps_mutation 0 ⟨[(1, 5, "r")], []⟩ 1 "b" "2ч" "sp"
      "err").2.2.1 (by decide)).2.2,
   ((notify_failure_keeps_mutation 0 ⟨[], [(1, "b")]⟩ 1 "b" "2ч" "sp"
      "err").2.2.2 (by decide)).2.2⟩

/-- C8: for an unrestricted user (not banned, not muted), a text
message longer than 4000 characters or a caption longer than 1000
characters is answered with the length error and not forwarded;
within the limits the message is forwarded to the group. -/
theorem relay_length_gate (now : Nat) (st : State) (uid : Nat)
    (text : String) (caption : Option String)
    (hb : is_user_banned st uid = false)
    (hm : (is_user_muted now st uid).1 = false) :
    (send_message_to_group now st uid text).1 =
      (if 4000 < text.length then RelayAction.replyTooLong
       else RelayAction.forwardToGroup) ∧
    (supported_media now st uid caption).1 =
      (if 1000 < (caption.getD "").length then RelayAction.replyTooLong
       else RelayAction.forwardToGroup) := by
  constructor
  · by_cases hl : 4000 < text.length <;>
      simp [send_message_to_group, hb, hm, hl]
  · cases caption with
    | none => simp [supported_media, hb, hm]
    | some c =>
        by_cases hl : 1000 < c.length <;>
          simp [supported_media, hb, hm, hl]

/-- C8 witness: an unrestricted user's short text and captionless media
are both forwarded. -/
theorem relay_length_gate_witness :
    (send_message_to_group 0 ⟨[], []⟩ 1 "hi").1 =
      (if 4000 < ("hi" : String).length then RelayAction.replyTooLong
       else RelayAction.forwardToGroup) ∧
    (supported_media 0 ⟨[], []⟩ 1 none).1 =
      (if 1000 < ((none : Option String).getD "").length then
        RelayAction.replyTooLong
       else RelayAction.forwardToGroup) :=
  relay_length_gate 0 ⟨[], []⟩ 1 "hi" none rfl rfl

/-- C10: whenever the hours and minutes tokens of the input sum to
more than 1440 minutes, `parse_duration` returns the clamped minute
count 1440 while the display string still renders the original
unclamped token values, so the numeric result and the display
disagree. -/
theorem parse_duration_clamp_display (s : String)
    (h : 1440 < 60 * ((findNum 'ч' none s.data).getD 0) +
          (findNum 'м' none s.data).getD 0) :
    (parse_duration s).1 = 1440 ∧
    (parse_duration s).2 = String.intercalate " "
      ((match findNum 'ч' none s.data with
        | some n => [toString n ++ "ч"]
        | none => []) ++
       (match findNum 'м' none s.data with
        | some n => [toString n ++ "м"]
        | none => [])) := by
  have hs : ¬ s = "" := by
    intro he
    rw [he] at h
    exact absurd h (by decide)
  rw [parse_duration, if_neg hs]
  rcases hh : findNum 'ч' none s.data with _ | hv <;>
    rcases hm : findNum 'м' none s.data with _ | mv <;>
    rw [hh, hm] at h <;>
    simp only [Option.getD_some, Option.getD_none] at h
  · exact absurd h (by omega)
  · have hcore : parse_core s = ((mv : Int), [toString mv ++ "м"]) := by
      simp only [parse_core, hh, hm]
      rw [if_neg (by omega : ¬ ((0 : Int) + (mv : Int) = 0))]
      simp
    rw [hcore]
    exact ⟨min_eq_right (by omega), by simp⟩
  · have hcore : parse_core s = ((hv : Int) * 60, [toString hv ++ "ч"]) := by
      simp only [parse_core, hh, hm]
      rw [if_neg (by omega : ¬ ((hv : Int) * 60 = 0))]
    rw [hcore]
    exact ⟨min_eq_right (by omega), by simp⟩
  · have hcore : parse_core s =
        ((hv : Int) * 60 + (mv : Int),
          [toString hv ++ "ч", toString mv ++ "м"]) := by
      simp only [parse_core, hh, hm]
      rw [if_neg (by omega : ¬ ((hv : Int) * 60 + (mv : Int) = 0))]
      simp
    rw [hcore]
    exact ⟨min_eq_right (by omega), by simp⟩

/-- C10 witness: an hours token of 50 parses to the clamped count 1440
while the display still reads "50ч". -/
theorem parse_duration_clamp_display_witness :
    (parse_duration "50ч").1 = 1440 ∧
    (parse_duration "50ч").2 = String.intercalate " "
      ((match findNum 'ч' none ("50ч" : String).data with
        | some n => [toString n ++ "ч"]
        | none => []) ++
       (match findNum 'м' none ("50ч" : String).data with
        | some n => [toString n ++ "м"]
        | none => [])) :=
  parse_duration_clamp_display "50ч" (by decide)

/-- C9: `/unmute` on a user with no mute record replies "not muted",
sends no notification to the target, and leaves both registries
unchanged. -/
theorem unmute_cmd_not_muted (st : State) (uid : Nat) (send : SendResult)
    (h : containsKey uid st.muted = false) :
    unmute_cmd st uid send = ⟨st, .notMuted, false⟩ := by
  simp [unmute_cmd, h]

/-- C9 witness: unmuting user 1, absent from the mute registry, changes
nothing and reports "not muted". -/
theorem unmute_cmd_not_muted_witness :
    unmute_cmd ⟨[], [(2, "x")]⟩ 1 SendResult.ok =
      ⟨⟨[], [(2, "x")]⟩, AdminReply.notMuted, false⟩ :=
  unmute_cmd_not_muted ⟨[], [(2, "x")]⟩ 1 SendResult.ok rfl

end SupportBot
